import Mathlib

/-!
Verification of the IndieShots email-verified registration flow (server-side
OTP ledger in `server/otpAuth.ts`, shipped here as `src/unnamed/part_000`) and
of the client-side session reconciler (`src/client/src/lib/authManager.ts`).

The TypeScript is shallowly embedded: the in-memory `otpStore` Map becomes an
association list, wall-clock instants (`Date.now()` milliseconds) become `Nat`,
and external collaborators (the user store, bcrypt, the promo-code service,
account creation, the network) become explicit parameters recording their
outcome.  Every handler becomes a pure function from the request data, the
collaborator outcomes and the current state to a response and a new state.
-/

set_option autoImplicit false

namespace IndieShots

/-! ## Server side: the one-time-code ledger (`src/unnamed/part_000`) -/

/-- The pending account payload built by `registerWithOTP` and carried in the
`userData` field of the OTP store (`part_000`, lines 99-111). -/
structure UserData where
  email : String
  firstName : String
  lastName : String
  password : String
  provider : String
  tier : String
  totalPages : Int
  maxShotsPerScene : Int
  canGenerateStoryboards : Bool
  usedPages : Int
  couponCode : Option String
deriving DecidableEq, Repr

/-- One entry of the `otpStore` Map (`part_000`, lines 9-14): the stored code,
its expiry instant in milliseconds, the pending payload and the attempt
counter. -/
structure OtpRecord where
  otp : String
  expires : Nat
  userData : UserData
  attempts : Nat
deriving DecidableEq, Repr

/-- Server state: the `otpStore` Map as an association list keyed by the
lowercased email, together with the multiset of scheduled eviction timers
(key, firing instant) created by the `setTimeout` in `storeOTP`
(`part_000`, lines 31-34).  A timer is recorded when scheduled and is never
cancelled, exactly as in the source. -/
structure ServerState where
  otpStore : List (String × OtpRecord)
  timers : List (String × Nat)
deriving DecidableEq, Repr

/-- Lookup in the association list, mirroring `otpStore.get(key)`. -/
def mapGet : List (String × OtpRecord) → String → Option OtpRecord
  | [], _ => none
  | (k, v) :: rest, key => if k = key then some v else mapGet rest key

/-- Insertion mirroring `otpStore.set(key, v)`: replaces the entry when the
key is present, appends otherwise. -/
def mapSet : List (String × OtpRecord) → String → OtpRecord → List (String × OtpRecord)
  | [], key, v => [(key, v)]
  | (k, w) :: rest, key, v =>
    if k = key then (key, v) :: rest else (k, w) :: mapSet rest key v

/-- Deletion mirroring `otpStore.delete(key)` (keys are unique in any state
built by `mapSet`, so removing every match coincides with Map.delete). -/
def mapDel : List (String × OtpRecord) → String → List (String × OtpRecord)
  | [], _ => []
  | (k, v) :: rest, key =>
    if k = key then mapDel rest key else (k, v) :: mapDel rest key

/-- JS `String.prototype.toLowerCase()` restricted to the ASCII range, as an
executable map over the characters (this is also exactly what core Lean's
`String.toLower` computes, written here so that it unfolds by `rfl`). -/
def lowerStr (s : String) : String := ⟨s.data.map Char.toLower⟩

/-- Model of Node `crypto.randomInt(lo, hi)`: a uniform draw from the
half-open interval [lo, hi) — the upper bound is exclusive per the Node
documentation.  The argument `r` is the raw randomness; when `r` is uniform
over a multiple of `hi - lo` the result is uniform over [lo, hi). -/
def randomInt (lo hi r : Nat) : Nat := lo + r % (hi - lo)

/-- Numeric value produced by `generateOTP` (`part_000`, lines 17-19):
`crypto.randomInt(100000, 999999)`. -/
def generateOTPNat (r : Nat) : Nat := randomInt 100000 999999 r

/-- `generateOTP` (`part_000`, lines 17-19): the numeric draw rendered as a
decimal string. -/
def generateOTP (r : Nat) : String := toString (generateOTPNat r)

/-- `storeOTP` (`part_000`, lines 22-35): stores a fresh record under the
lowercased email with a 5-minute code expiry and attempts = 0, and schedules
an eviction timer 10 minutes out.  An existing entry under the same key is
overwritten, but any previously scheduled timer stays pending. -/
def storeOTP (now : Nat) (email otp : String) (ud : UserData) (st : ServerState) : ServerState :=
  { otpStore := mapSet st.otpStore (lowerStr email)
      { otp := otp, expires := now + 5 * 60 * 1000, userData := ud, attempts := 0 },
    timers := st.timers ++ [(lowerStr email, now + 10 * 60 * 1000)] }

/-- Firing of the eviction `setTimeout` scheduled by `storeOTP`: its callback
deletes whatever record currently sits under the key (`part_000`, line 33).
It is a no-op on the store when the key is already gone. -/
def fireEviction (key : String) (st : ServerState) : ServerState :=
  { st with otpStore := mapDel st.otpStore key }

/-- Outcome of `verifyOTP` (`part_000`, lines 144-215).  Each constructor is
one response branch; `mismatch` carries the `attemptsLeft` value of the 400
body, `success` carries the payload handed to `storage.createUser`. -/
inductive VerifyResult where
  | missingFields : VerifyResult
  | notFound : VerifyResult
  | expired : VerifyResult
  | rateLimited : VerifyResult
  | mismatch (attemptsLeft : Nat) : VerifyResult
  | success (ud : UserData) : VerifyResult
  | serverError : VerifyResult
deriving DecidableEq, Repr

/-- `verifyOTP` (`part_000`, lines 144-215).  `createOk` records whether the
external `storage.createUser` call succeeds; when it throws, the catch block
returns 500 and the pending record is left in place (the delete on line 189
runs only after creation).  The truthiness guard on line 148 treats the empty
string as a missing field. -/
def verifyOTP (createOk : Bool) (now : Nat) (email otp : String) (st : ServerState) :
    VerifyResult × ServerState :=
  if email = "" ∨ otp = "" then (.missingFields, st)
  else
    let key := lowerStr email
    match mapGet st.otpStore key with
    | none => (.notFound, st)
    | some stored =>
      if now > stored.expires then
        (.expired, { st with otpStore := mapDel st.otpStore key })
      else if stored.attempts ≥ 5 then
        (.rateLimited, { st with otpStore := mapDel st.otpStore key })
      else if stored.otp ≠ otp then
        (.mismatch (5 - (stored.attempts + 1)),
         { st with otpStore := mapSet st.otpStore key { stored with attempts := stored.attempts + 1 } })
      else if createOk then
        (.success stored.userData, { st with otpStore := mapDel st.otpStore key })
      else
        (.serverError, st)

/-- Outcome of `resendOTP` (`part_000`, lines 220-258): each constructor is
one response branch (400 missing email, 400 no pending verification, 200). -/
inductive ResendResult where
  | missingEmail : ResendResult
  | notFound : ResendResult
  | ok : ResendResult
deriving DecidableEq, Repr

/-- `resendOTP` (`part_000`, lines 220-258): mutates the stored record in
place — new code from `generateOTP`, expiry pushed to now + 5 minutes,
attempts reset to 0 — and schedules no new eviction timer. -/
def resendOTP (now : Nat) (email : String) (r : Nat) (st : ServerState) :
    ResendResult × ServerState :=
  if email = "" then (.missingEmail, st)
  else
    let key := lowerStr email
    match mapGet st.otpStore key with
    | none => (.notFound, st)
    | some stored =>
      let upd : OtpRecord :=
        { stored with otp := generateOTP r, expires := now + 5 * 60 * 1000, attempts := 0 }
      (.ok, { st with otpStore := mapSet st.otpStore key upd })

/-- Request body accepted by `registerWithOTP` after the zod parse
(`part_000`, lines 38-44). -/
structure RegisterInput where
  firstName : Option String
  lastName : Option String
  email : String
  password : String
  couponCode : Option String
deriving DecidableEq, Repr

/-- Outcome of the external promo-code validation inside `registerWithOTP`
(`part_000`, lines 70-94): the code validated, failed validation, or the
collaborator threw (both failure shapes leave the free tier in place). -/
inductive PromoOutcome where
  | valid : PromoOutcome
  | invalid : PromoOutcome
  | errored : PromoOutcome
deriving DecidableEq, Repr

/-- HTTP response of `registerWithOTP` and `resendOTP` as seen by the caller:
status plus the JSON body fields the handlers actually emit.  Absent body
fields are `none`. -/
structure HandlerResponse where
  status : Nat
  message : String
  email : Option String
  requiresVerification : Option Bool
  devNote : Option String
deriving DecidableEq, Repr

/-- `registerWithOTP` (`part_000`, lines 49-139).  `parseOk` and `parseErrMsg`
record the outcome of the zod parse, `existingUser` the outcome of
`storage.getUserByEmail`, `hashed` the bcrypt hash, and `promo` the promo-code
collaborator outcome.  On the success path it builds the payload, draws a code
with randomness `r`, stores it via `storeOTP`, and answers 200 with a body
that never carries the code.  The pending payload of lines 99-111 is built
by `registerPayload`. -/
def registerPayload (hashed : String) (promo : PromoOutcome) (inp : RegisterInput) : UserData :=
  let upgraded := inp.couponCode.isSome ∧ promo = .valid
  { email := lowerStr inp.email,
    firstName := inp.firstName.getD "",
    lastName := inp.lastName.getD "",
    password := hashed,
    provider := "local",
    tier := if upgraded then "pro" else "free",
    totalPages := if upgraded then -1 else 10,
    maxShotsPerScene := if upgraded then -1 else 5,
    canGenerateStoryboards := if upgraded then true else false,
    usedPages := 0,
    couponCode := inp.couponCode }

/-- `registerWithOTP` (`part_000`, lines 49-139) as the handler proper,
delegating the payload construction to `registerPayload`. -/
def registerWithOTP (parseOk : Bool) (parseErrMsg : String) (existingUser : Bool)
    (hashed : String) (promo : PromoOutcome) (inp : RegisterInput) (r : Nat) (now : Nat)
    (st : ServerState) : HandlerResponse × ServerState :=
  if ¬parseOk then
    ({ status := 400, message := parseErrMsg, email := none,
       requiresVerification := none, devNote := none }, st)
  else if existingUser then
    ({ status := 400, message := "Email already registered", email := none,
       requiresVerification := none, devNote := none }, st)
  else
    let ud : UserData := registerPayload hashed promo inp
    let otp := generateOTP r
    let st' := storeOTP now ud.email otp ud st
    ({ status := 200,
       message := "Verification code sent! Check the server console for your OTP.",
       email := some ud.email,
       requiresVerification := some true,
       devNote := some "For development: Check server console for OTP code" }, st')

/-! ## Client side: the session reconciler (`src/client/src/lib/authManager.ts`) -/

/-- The four values of the `AuthState` union (`authManager.ts`, line 16). -/
inductive AuthState where
  | loading : AuthState
  | authenticated : AuthState
  | unauthenticated : AuthState
  | disabled : AuthState
deriving DecidableEq, Repr

/-- The cached `AuthUser` snapshot (`authManager.ts`, lines 18-42), restricted
to the fields the manager reads and writes; optional fields are `Option`
with `none` standing for `undefined`. -/
structure AuthUser where
  id : String
  email : String
  displayName : Option String
  provider : String
  tier : Option String
  usedPages : Option Int
  totalPages : Option Int
  maxShotsPerScene : Option Int
  canGenerateStoryboards : Option Bool
deriving DecidableEq, Repr

/-- A user record as delivered by the backend JSON (the `firebase-sync`
response body, and the `user` field of the `refresh-session` response):
every field may be absent. -/
structure BackendUser where
  id : String
  email : String
  displayName : Option String
  provider : Option String
  tier : Option String
  usedPages : Option Int
  totalPages : Option Int
  maxShotsPerScene : Option Int
  canGenerateStoryboards : Option Bool
deriving DecidableEq, Repr

/-- The Firebase identity payload delivered to the `onAuthStateChanged`
callback; the manager forwards it to the backend exchange and otherwise
treats it opaquely, so only a stub of it is modelled. -/
structure FirebaseUser where
  uid : String
  email : Option String
deriving DecidableEq, Repr

/-- The slice of `localStorage` the manager touches: the `auth_disabled` flag
and the `logout_timestamp` instant (stored stringly in the source; the
timestamp is kept as a number here since it is only ever parsed back). -/
structure LocalStore where
  auth_disabled : Option String
  logout_timestamp : Option Nat
deriving DecidableEq, Repr

/-- The whole observable state of the `AuthManager` singleton: its private
fields, the persisted `localStorage` slice, the last value handed to
`notifyListeners` dedup (`lastNotifiedState`, line 213), the ordered log of
emissions actually delivered to listeners, the number of Firebase
`signOut` calls issued by `forceSignOut`, and whether the post-login tier
validation timeout is pending. -/
structure ManagerState where
  authState : AuthState
  user : Option AuthUser
  isLoggedOut : Bool
  pendingCouponCode : Option String
  store : LocalStore
  lastNotified : Option (AuthState × Option AuthUser)
  emissions : List (AuthState × Option AuthUser)
  idpSignOuts : Nat
  tierValidationScheduled : Bool
deriving DecidableEq, Repr

/-- `notifyListeners` (`authManager.ts`, lines 215-227): suppresses the
emission when both the state and the deep value of the user equal the last
notified pair (the source compares `JSON.stringify` of the users, which is
structural equality here), otherwise records the pair and delivers it. -/
def notifyListeners (st : ManagerState) : ManagerState :=
  let cur := (st.authState, st.user)
  match st.lastNotified with
  | some last =>
    if last = cur then st
    else { st with lastNotified := some cur, emissions := st.emissions ++ [cur] }
  | none => { st with lastNotified := some cur, emissions := st.emissions ++ [cur] }

/-- The `recentLogout` test of the auth-state listener (`authManager.ts`,
line 83): a logout timestamp exists and lies within the 120000 ms window.
JS computes `Date.now() - parseInt(ts) < 120000`; truncated `Nat`
subtraction agrees with it on every case (a timestamp in the future makes
the JS difference negative, hence also below the bound). -/
def recentLogout (now : Nat) (s : LocalStore) : Bool :=
  match s.logout_timestamp with
  | some t => now - t < 120000
  | none => false

/-- First component of `email.split('@')`, used for the display-name
fallback. -/
def emailLocalPart (s : String) : String := (s.splitOn "@").headD s

/-- JS `a || b` on strings: `b` when `a` is empty (falsy), else `a`. -/
def orElseStr (a b : String) : String := if a = "" then b else a

/-- The user snapshot built from the backend response inside
`createBackendSession` (`authManager.ts`, lines 156-167), using only the
database-provided fields. -/
def snapshotFromBackend (b : BackendUser) : AuthUser :=
  { id := b.id,
    email := b.email,
    displayName := some (orElseStr (b.displayName.getD "")
      (orElseStr (emailLocalPart b.email) "User")),
    provider := orElseStr (b.provider.getD "") "password",
    tier := b.tier,
    usedPages := b.usedPages,
    totalPages := b.totalPages,
    maxShotsPerScene := b.maxShotsPerScene,
    canGenerateStoryboards := b.canGenerateStoryboards }

/-- `createBackendSession` (`authManager.ts`, lines 112-209).  The network
round-trip is summarised by `backend`: `some b` when the sync endpoint
answered ok with body `b`, `none` on a non-ok status or a thrown error (both
source branches perform the same state change).  On success the manager
adopts the backend snapshot, clears the pending coupon and schedules the
automatic tier validation; on failure it falls back to unauthenticated with
no user.  Both paths end in `notifyListeners`. -/
def createBackendSession (backend : Option BackendUser) (st : ManagerState) : ManagerState :=
  match backend with
  | some b =>
    notifyListeners { st with
      user := some (snapshotFromBackend b),
      authState := .authenticated,
      pendingCouponCode := none,
      tierValidationScheduled := true }
  | none =>
    notifyListeners { st with
      authState := .unauthenticated,
      user := none,
      pendingCouponCode := none }

/-- The `onAuthStateChanged` callback installed during manager setup
(`authManager.ts`, lines 78-109).  `fb` is the Firebase notification payload
(`some` for a sign-in, `none` for a sign-out); `backend` summarises the
backend exchange used only on the accepting sign-in path.  The blocking
guard on line 86 fires when the state is disabled, the logout flag is set, a
logout happened within 120 s, or the persisted `auth_disabled` flag reads
"true"; it force-closes any reported Firebase session, pins the state to
disabled with no user, and notifies. -/
def handleAuthChange (now : Nat) (fb : Option FirebaseUser) (backend : Option BackendUser)
    (st : ManagerState) : ManagerState :=
  if st.authState = .disabled ∨ st.isLoggedOut = true ∨ recentLogout now st.store = true ∨
      st.store.auth_disabled = some "true" then
    let st := match fb with
      | some _ => { st with idpSignOuts := st.idpSignOuts + 1 }
      | none => st
    notifyListeners { st with authState := .disabled, user := none }
  else
    match fb with
    | some _ => createBackendSession backend st
    | none => notifyListeners { st with authState := .unauthenticated, user := none }

/-- The synchronous prefix of `logout()` (`authManager.ts`, lines 282-293):
everything that runs before the first `await` of the asynchronous teardown —
set the logout flag, pin the state to disabled, drop the user, persist the
`auth_disabled` flag and the logout timestamp, and notify listeners. -/
def logoutSync (now : Nat) (st : ManagerState) : ManagerState :=
  notifyListeners { st with
    isLoggedOut := true,
    authState := .disabled,
    user := none,
    store := { auth_disabled := some "true", logout_timestamp := some now } }

/-- The in-place overwrite of the four tier fields performed on lines
482-488 of `authManager.ts`; every other field of the cached user — in
particular the identity fields id, email, displayName and provider — is
untouched. -/
def applyTierUpdate (u : AuthUser) (f : BackendUser) : AuthUser :=
  { u with tier := f.tier, totalPages := f.totalPages, maxShotsPerScene := f.maxShotsPerScene, canGenerateStoryboards := f.canGenerateStoryboards }

/-- `validateAndUpdateTier` (`authManager.ts`, lines 461-499).  `fresh` is
`some f` when the `refresh-session` endpoint answered ok with user `f`,
`none` on a non-ok status or a network error (in which case the source
leaves all state untouched).  The mismatch test on lines 475-477 compares
exactly `tier`, `canGenerateStoryboards` and `maxShotsPerScene`; on a
mismatch the four tier fields (including `totalPages`) are overwritten in
place and listeners are notified; otherwise nothing changes. -/
def validateAndUpdateTier (fresh : Option BackendUser) (st : ManagerState) : ManagerState :=
  match st.user with
  | none => st
  | some u =>
    match fresh with
    | none => st
    | some f =>
      if f.tier ≠ u.tier ∨ f.canGenerateStoryboards ≠ u.canGenerateStoryboards ∨
          f.maxShotsPerScene ≠ u.maxShotsPerScene then
        notifyListeners { st with user := some (applyTierUpdate u f) }
      else st

/-- A `Partial<AuthUser>` patch as accepted by `updateUserData`: `none` means
the key is absent from the object; for the optional `AuthUser` fields a
present key may itself carry `undefined`, hence the nested `Option`. -/
structure AuthUserPatch where
  id : Option String
  email : Option String
  displayName : Option (Option String)
  provider : Option String
  tier : Option (Option String)
  usedPages : Option (Option Int)
  totalPages : Option (Option Int)
  maxShotsPerScene : Option (Option Int)
  canGenerateStoryboards : Option (Option Bool)
deriving DecidableEq, Repr

/-- The empty patch (an object with no keys). -/
def emptyPatch : AuthUserPatch :=
  { id := none, email := none, displayName := none, provider := none, tier := none,
    usedPages := none, totalPages := none, maxShotsPerScene := none,
    canGenerateStoryboards := none }

/-- The JS spread `{ ...u, ...p }`: keys present in the patch override. -/
def mergeUser (u : AuthUser) (p : AuthUserPatch) : AuthUser :=
  { id := p.id.getD u.id,
    email := p.email.getD u.email,
    displayName := p.displayName.getD u.displayName,
    provider := p.provider.getD u.provider,
    tier := p.tier.getD u.tier,
    usedPages := p.usedPages.getD u.usedPages,
    totalPages := p.totalPages.getD u.totalPages,
    maxShotsPerScene := p.maxShotsPerScene.getD u.maxShotsPerScene,
    canGenerateStoryboards := p.canGenerateStoryboards.getD u.canGenerateStoryboards }

/-- `updateUserData` (`authManager.ts`, lines 415-434): a no-op without a
cached user; when the cached user has email exactly premium@demo.com the
supplied patch is overridden to force the pro tier, unlimited pages and
shots, and storyboard generation, before the spread-merge and the listener
notification. -/
def updateUserData (p : AuthUserPatch) (st : ManagerState) : ManagerState :=
  match st.user with
  | none => st
  | some u =>
    let p' := if u.email = "premium@demo.com" then
        { p with
          tier := some (some "pro"),
          totalPages := some (some (-1)),
          maxShotsPerScene := some (some (-1)),
          canGenerateStoryboards := some (some true) }
      else p
    notifyListeners { st with user := some (mergeUser u p') }

/-- Response of `resendOTP` for each outcome (`part_000`, lines 224-252):
the bodies are literal constants, none of which carries the new code. -/
def resendResponse : ResendResult → HandlerResponse
  | .missingEmail =>
    { status := 400, message := "Email is required", email := none,
      requiresVerification := none, devNote := none }
  | .notFound =>
    { status := 400, message := "No verification pending for this email", email := none,
      requiresVerification := none, devNote := none }
  | .ok =>
    { status := 200, message := "New verification code sent! Check server console.",
      email := none, requiresVerification := none,
      devNote := some "For development: Check server console for new OTP code" }

/-! ## Concrete fixtures used by witnesses and counterexamples -/

/-- A pending payload as built by a free-tier registration. -/
def demoUserData : UserData :=
  { email := "a@b.com", firstName := "A", lastName := "B", password := "hash",
    provider := "local", tier := "free", totalPages := 10, maxShotsPerScene := 5,
    canGenerateStoryboards := false, usedPages := 0, couponCode := none }

/-- A fresh pending record for demoUserData, code 123456, expiring at 300000. -/
def demoRecord : OtpRecord :=
  { otp := "123456", expires := 300000, userData := demoUserData, attempts := 0 }

/-- A server state holding exactly the demo record and its eviction timer. -/
def demoServer : ServerState :=
  { otpStore := [("a@b.com", demoRecord)], timers := [("a@b.com", 600000)] }

/-- A cached free-tier client user. -/
def demoUser : AuthUser :=
  { id := "u1", email := "a@b.com", displayName := some "A", provider := "password",
    tier := some "free", usedPages := some 0, totalPages := some 10,
    maxShotsPerScene := some 5, canGenerateStoryboards := some false }

/-- An authenticated manager state caching demoUser, with the listener dedup
cache holding the last emitted pair as it does after any emission. -/
def demoManager : ManagerState :=
  { authState := .authenticated, user := some demoUser, isLoggedOut := false,
    pendingCouponCode := none, store := { auth_disabled := none, logout_timestamp := none },
    lastNotified := some (.authenticated, some demoUser),
    emissions := [(.authenticated, some demoUser)], idpSignOuts := 0,
    tierValidationScheduled := true }

/-- A refresh-session result agreeing with demoUser on tier, storyboards and
shots but reporting a different page quota. -/
def freshQuotaOnly : BackendUser :=
  { id := "u1", email := "a@b.com", displayName := some "A", provider := some "password",
    tier := some "free", usedPages := some 0, totalPages := some 20,
    maxShotsPerScene := some 5, canGenerateStoryboards := some false }

/-- A refresh-session result reporting a different tier than demoUser. -/
def freshPro : BackendUser :=
  { id := "u1", email := "a@b.com", displayName := some "A", provider := some "password",
    tier := some "pro", usedPages := some 0, totalPages := some (-1),
    maxShotsPerScene := some (-1), canGenerateStoryboards := some true }

/-- The cached user of the premium demo account. -/
def premiumDemoUser : AuthUser :=
  { id := "u2", email := "premium@demo.com", displayName := some "P", provider := "password",
    tier := some "free", usedPages := some 0, totalPages := some 10,
    maxShotsPerScene := some 5, canGenerateStoryboards := some false }

/-- A manager state caching the premium demo user. -/
def premiumDemoManager : ManagerState :=
  { demoManager with
    user := some premiumDemoUser,
    lastNotified := some (.authenticated, some premiumDemoUser),
    emissions := [(.authenticated, some premiumDemoUser)] }

/-- A manager state as it stands right after a logout: disabled, locked, no
user, dedup cache holding the (disabled, none) pair. -/
def lockedManager : ManagerState :=
  { authState := .disabled, user := none, isLoggedOut := true, pendingCouponCode := none,
    store := { auth_disabled := some "true", logout_timestamp := some 0 },
    lastNotified := some (.disabled, none), emissions := [], idpSignOuts := 0,
    tierValidationScheduled := false }

/-- A registration request for the demo address. -/
def demoInput : RegisterInput :=
  { firstName := some "A", lastName := some "B", email := "a@b.com",
    password := "longpassword", couponCode := none }

/-- A patch reporting the free tier with finite quotas, as a backend refresh
for a downgraded account would produce. -/
def freePatch : AuthUserPatch :=
  { emptyPatch with tier := some (some "free"), totalPages := some (some 10), maxShotsPerScene := some (some 5), canGenerateStoryboards := some (some false) }

/-! ## Helper lemmas -/

@[simp] theorem mapGet_set_self (m : List (String × OtpRecord)) (k : String) (v : OtpRecord) :
    mapGet (mapSet m k v) k = some v := by
  induction m with
  | nil => simp [mapSet, mapGet]
  | cons hd tl ih =>
    obtain ⟨k0, v0⟩ := hd
    by_cases h : k0 = k
    · simp [mapSet, mapGet, h]
    · simpa [mapSet, mapGet, h] using ih

@[simp] theorem mapGet_set_ne (m : List (String × OtpRecord)) (k k' : String) (v : OtpRecord)
    (h : k ≠ k') : mapGet (mapSet m k v) k' = mapGet m k' := by
  induction m with
  | nil => simp [mapSet, mapGet, h]
  | cons hd tl ih =>
    obtain ⟨k0, v0⟩ := hd
    by_cases hk : k0 = k
    · subst hk
      simp [mapSet, mapGet, h, Ne.symm h]
    · by_cases hk' : k0 = k'
      · simp [mapSet, mapGet, hk, hk', Ne.symm h]
      · simp [mapSet, mapGet, hk, hk', ih]

@[simp] theorem mapGet_del_self (m : List (String × OtpRecord)) (k : String) :
    mapGet (mapDel m k) k = none := by
  induction m with
  | nil => simp [mapDel, mapGet]
  | cons hd tl ih =>
    obtain ⟨k0, v0⟩ := hd
    by_cases h : k0 = k
    · simpa [mapDel, mapGet, h] using ih
    · simpa [mapDel, mapGet, h] using ih

@[simp] theorem mapGet_del_ne (m : List (String × OtpRecord)) (k k' : String) (h : k ≠ k') :
    mapGet (mapDel m k) k' = mapGet m k' := by
  induction m with
  | nil => simp [mapDel, mapGet]
  | cons hd tl ih =>
    obtain ⟨k0, v0⟩ := hd
    by_cases hk : k0 = k
    · subst hk
      simp [mapDel, mapGet, h, Ne.symm h, ih]
    · by_cases hk' : k0 = k'
      · simp [mapDel, mapGet, hk, hk', Ne.symm h]
      · simp [mapDel, mapGet, hk, hk', ih]

@[simp] theorem notifyListeners_authState (st : ManagerState) :
    (notifyListeners st).authState = st.authState := by
  unfold notifyListeners
  cases st.lastNotified with
  | none => rfl
  | some last => dsimp only; split <;> rfl

@[simp] theorem notifyListeners_user (st : ManagerState) :
    (notifyListeners st).user = st.user := by
  unfold notifyListeners
  cases st.lastNotified with
  | none => rfl
  | some last => dsimp only; split <;> rfl

@[simp] theorem notifyListeners_store (st : ManagerState) :
    (notifyListeners st).store = st.store := by
  unfold notifyListeners
  cases st.lastNotified with
  | none => rfl
  | some last => dsimp only; split <;> rfl

@[simp] theorem notifyListeners_isLoggedOut (st : ManagerState) :
    (notifyListeners st).isLoggedOut = st.isLoggedOut := by
  unfold notifyListeners
  cases st.lastNotified with
  | none => rfl
  | some last => dsimp only; split <;> rfl

@[simp] theorem notifyListeners_idpSignOuts (st : ManagerState) :
    (notifyListeners st).idpSignOuts = st.idpSignOuts := by
  unfold notifyListeners
  cases st.lastNotified with
  | none => rfl
  | some last => dsimp only; split <;> rfl

theorem notifyListeners_of_dup (st : ManagerState)
    (h : st.lastNotified = some (st.authState, st.user)) : notifyListeners st = st := by
  unfold notifyListeners
  rw [h]
  simp

theorem notifyListeners_of_new (st : ManagerState)
    (h : st.lastNotified ≠ some (st.authState, st.user)) :
    notifyListeners st = { st with
      lastNotified := some (st.authState, st.user),
      emissions := st.emissions ++ [(st.authState, st.user)] } := by
  unfold notifyListeners
  cases hl : st.lastNotified with
  | none => rfl
  | some last =>
    dsimp only
    rw [if_neg]
    intro he
    exact h (by rw [hl, he])

theorem notifyListeners_emissions_mem (st : ManagerState) :
    ∀ e ∈ (notifyListeners st).emissions, e ∈ st.emissions ∨ e = (st.authState, st.user) := by
  intro e he
  by_cases h : st.lastNotified = some (st.authState, st.user)
  · rw [notifyListeners_of_dup st h] at he
    exact Or.inl he
  · rw [notifyListeners_of_new st h] at he
    simpa using he

theorem verifyOTP_notFound_step (createOk : Bool) (now : Nat) (email otp : String)
    (st : ServerState) (hres : mapGet st.otpStore (lowerStr email) = none)
    (hemail : email ≠ "") (hotp : otp ≠ "") :
    verifyOTP createOk now email otp st = (.notFound, st) := by
  simp [verifyOTP, hemail, hotp, hres]

theorem verifyOTP_expired_step (createOk : Bool) (now : Nat) (email otp : String)
    (st : ServerState) (rec : OtpRecord)
    (hres : mapGet st.otpStore (lowerStr email) = some rec)
    (hexp : now > rec.expires) (hemail : email ≠ "") (hotp : otp ≠ "") :
    verifyOTP createOk now email otp st =
      (.expired, { st with otpStore := mapDel st.otpStore (lowerStr email) }) := by
  simp [verifyOTP, hemail, hotp, hres, hexp]

theorem verifyOTP_rate_step (createOk : Bool) (now : Nat) (email otp : String)
    (st : ServerState) (rec : OtpRecord)
    (hres : mapGet st.otpStore (lowerStr email) = some rec)
    (hexp : now ≤ rec.expires) (hatt : 5 ≤ rec.attempts)
    (hemail : email ≠ "") (hotp : otp ≠ "") :
    verifyOTP createOk now email otp st =
      (.rateLimited, { st with otpStore := mapDel st.otpStore (lowerStr email) }) := by
  simp [verifyOTP, hemail, hotp, hres, Nat.not_lt.mpr hexp, hatt]

theorem verifyOTP_mismatch_step (createOk : Bool) (now : Nat) (email otp : String)
    (st : ServerState) (rec : OtpRecord)
    (hres : mapGet st.otpStore (lowerStr email) = some rec)
    (hne : rec.otp ≠ otp) (hexp : now ≤ rec.expires) (hatt : rec.attempts < 5)
    (hemail : email ≠ "") (hotp : otp ≠ "") :
    verifyOTP createOk now email otp st =
      (.mismatch (5 - (rec.attempts + 1)),
       { st with otpStore := mapSet st.otpStore (lowerStr email) { rec with attempts := rec.attempts + 1 } }) := by
  simp [verifyOTP, hemail, hotp, hres, Nat.not_lt.mpr hexp, Nat.not_le.mpr hatt, hne]

theorem verifyOTP_success_step (now : Nat) (email : String)
    (st : ServerState) (rec : OtpRecord)
    (hres : mapGet st.otpStore (lowerStr email) = some rec)
    (hexp : now ≤ rec.expires) (hatt : rec.attempts < 5)
    (hemail : email ≠ "") (hotp : rec.otp ≠ "") :
    verifyOTP true now email rec.otp st =
      (.success rec.userData, { st with otpStore := mapDel st.otpStore (lowerStr email) }) := by
  simp [verifyOTP, hemail, hotp, hres, Nat.not_lt.mpr hexp, Nat.not_le.mpr hatt]

theorem resendOTP_notFound_step (now : Nat) (email : String) (r : Nat) (st : ServerState)
    (hres : mapGet st.otpStore (lowerStr email) = none) (hemail : email ≠ "") :
    resendOTP now email r st = (.notFound, st) := by
  simp [resendOTP, hemail, hres]

theorem resendOTP_ok_step (now : Nat) (email : String) (r : Nat) (st : ServerState)
    (rec : OtpRecord) (hres : mapGet st.otpStore (lowerStr email) = some rec)
    (hemail : email ≠ "") :
    resendOTP now email r st =
      (.ok, { st with otpStore := mapSet st.otpStore (lowerStr email) { rec with otp := generateOTP r, expires := now + 5 * 60 * 1000, attempts := 0 } }) := by
  simp [resendOTP, hemail, hres]

@[simp] theorem registerPayload_email (hashed : String) (promo : PromoOutcome)
    (inp : RegisterInput) : (registerPayload hashed promo inp).email = lowerStr inp.email := rfl

theorem registerWithOTP_success_state (parseErrMsg hashed : String) (promo : PromoOutcome)
    (inp : RegisterInput) (r now : Nat) (st : ServerState) :
    (registerWithOTP true parseErrMsg false hashed promo inp r now st).2 =
      storeOTP now (lowerStr inp.email) (generateOTP r) (registerPayload hashed promo inp) st := by
  simp [registerWithOTP]

/-! ## Claims -/

/-- C3, counterexample: the claim asserts every value of [100000, 999999] —
including 999999 — is a possible output of the code generator; in fact
`crypto.randomInt(100000, 999999)` draws from the half-open interval
[100000, 999999), so no draw ever yields 999999. -/
theorem c3_counterexample : ¬ ∃ r : Nat, generateOTPNat r = 999999 := by
  rintro ⟨r, h⟩
  have hlt : r % 899999 < 899999 := Nat.mod_lt _ (by norm_num)
  simp only [generateOTPNat, randomInt] at h
  omega

/-- C3, amended: the code generated at issuance and reissuance is a 6-digit
numeric value drawn uniformly from the closed interval [100000, 999998]:
every draw lands in that interval, every value of the interval is attained,
and over one period of the underlying draw each value has exactly one
preimage (uniformity); 999999 is never produced because the upper bound of
`crypto.randomInt` is exclusive. -/
theorem c3_code_range_uniform :
    (∀ r : Nat, 100000 ≤ generateOTPNat r ∧ generateOTPNat r ≤ 999998) ∧
    (∀ v : Nat, 100000 ≤ v → v ≤ 999998 → ∃ r : Nat, generateOTPNat r = v) ∧
    (∀ v : Nat, 100000 ≤ v → v ≤ 999998 → ∀ r : Nat, r < 899999 →
      (generateOTPNat r = v ↔ r = v - 100000)) := by
  refine ⟨fun r => ?_, fun v h1 h2 => ⟨v - 100000, ?_⟩, fun v h1 h2 r hr => ?_⟩
  · have hlt : r % 899999 < 899999 := Nat.mod_lt _ (by norm_num)
    simp only [generateOTPNat, randomInt]
    omega
  · have hlt : v - 100000 < 899999 := by omega
    simp only [generateOTPNat, randomInt]
    rw [Nat.mod_eq_of_lt hlt]
    omega
  · simp only [generateOTPNat, randomInt]
    rw [Nat.mod_eq_of_lt hr]
    omega

/-- C8: neither the registration response nor the reissue response depends on
which one-time code was generated — for any two values of the code-generator
randomness, all inputs and collaborator outcomes held fixed, the HTTP
response handed to the caller is identical (the code travels only through the
out-of-band console channel). -/
theorem c8_response_independent_of_code (parseOk : Bool) (parseErrMsg : String)
    (existingUser : Bool) (hashed : String) (promo : PromoOutcome) (inp : RegisterInput)
    (email : String) (r1 r2 now : Nat) (st : ServerState) :
    (registerWithOTP parseOk parseErrMsg existingUser hashed promo inp r1 now st).1 =
      (registerWithOTP parseOk parseErrMsg existingUser hashed promo inp r2 now st).1 ∧
    resendResponse (resendOTP now email r1 st).1 =
      resendResponse (resendOTP now email r2 st).1 := by
  constructor
  · unfold registerWithOTP
    split_ifs <;> rfl
  · by_cases he : email = ""
    · simp [resendOTP, he]
    · rcases h : mapGet st.otpStore (lowerStr email) with _ | rec <;>
        simp [resendOTP, he, h]

/-- C2: a confirmation attempt with a non-matching code increments the stored
attempt counter and fails with the mismatch error reporting
attemptsLeft = 5 - attempts (counted after the increment); consequently five
consecutive wrong submissions against a fresh record report 4, 3, 2, 1, 0,
and the sixth submission — even with the correct stored code — fails
rate-limited and deletes the pending record. -/
theorem c2_mismatch_counter_and_cap (createOk : Bool) (email : String) (st : ServerState)
    (rec : OtpRecord) (w1 w2 w3 w4 w5 : String) (n1 n2 n3 n4 n5 n6 : Nat)
    (hres : mapGet st.otpStore (lowerStr email) = some rec)
    (hatt0 : rec.attempts = 0) (hemail : email ≠ "") (hcode : rec.otp ≠ "")
    (hw1 : rec.otp ≠ w1) (hw1e : w1 ≠ "") (hn1 : n1 ≤ rec.expires)
    (hw2 : rec.otp ≠ w2) (hw2e : w2 ≠ "") (hn2 : n2 ≤ rec.expires)
    (hw3 : rec.otp ≠ w3) (hw3e : w3 ≠ "") (hn3 : n3 ≤ rec.expires)
    (hw4 : rec.otp ≠ w4) (hw4e : w4 ≠ "") (hn4 : n4 ≤ rec.expires)
    (hw5 : rec.otp ≠ w5) (hw5e : w5 ≠ "") (hn5 : n5 ≤ rec.expires)
    (hn6 : n6 ≤ rec.expires) :
    (∀ (now : Nat) (otp : String) (st' : ServerState) (r : OtpRecord),
        mapGet st'.otpStore (lowerStr email) = some r → r.otp ≠ otp → now ≤ r.expires →
        r.attempts < 5 → otp ≠ "" →
        (verifyOTP createOk now email otp st').1 = .mismatch (5 - (r.attempts + 1)) ∧
        mapGet (verifyOTP createOk now email otp st').2.otpStore (lowerStr email) =
          some { r with attempts := r.attempts + 1 }) ∧
    (let s1 := (verifyOTP createOk n1 email w1 st).2
     let s2 := (verifyOTP createOk n2 email w2 s1).2
     let s3 := (verifyOTP createOk n3 email w3 s2).2
     let s4 := (verifyOTP createOk n4 email w4 s3).2
     let s5 := (verifyOTP createOk n5 email w5 s4).2
     (verifyOTP createOk n1 email w1 st).1 = .mismatch 4 ∧
     (verifyOTP createOk n2 email w2 s1).1 = .mismatch 3 ∧
     (verifyOTP createOk n3 email w3 s2).1 = .mismatch 2 ∧
     (verifyOTP createOk n4 email w4 s3).1 = .mismatch 1 ∧
     (verifyOTP createOk n5 email w5 s4).1 = .mismatch 0 ∧
     (verifyOTP createOk n6 email rec.otp s5).1 = .rateLimited ∧
     mapGet (verifyOTP createOk n6 email rec.otp s5).2.otpStore (lowerStr email) = none) := by
  constructor
  · intro now otp st' r hres' hne hnow hr hotp
    have e := verifyOTP_mismatch_step createOk now email otp st' r hres' hne hnow hr hemail hotp
    constructor
    · rw [e]
    · rw [e]; simp
  · dsimp only
    have e1 := verifyOTP_mismatch_step createOk n1 email w1 st rec hres hw1 hn1
      (by omega) hemail hw1e
    have hres1 : mapGet (verifyOTP createOk n1 email w1 st).2.otpStore (lowerStr email) =
        some { rec with attempts := rec.attempts + 1 } := by rw [e1]; simp
    have e2 := verifyOTP_mismatch_step createOk n2 email w2 _ _ hres1 hw2 hn2
      (by show rec.attempts + 1 < 5; omega) hemail hw2e
    have hres2 : mapGet (verifyOTP createOk n2 email w2
        (verifyOTP createOk n1 email w1 st).2).2.otpStore (lowerStr email) =
        some { rec with attempts := rec.attempts + 1 + 1 } := by rw [e2]; simp
    have e3 := verifyOTP_mismatch_step createOk n3 email w3 _ _ hres2 hw3 hn3
      (by show rec.attempts + 1 + 1 < 5; omega) hemail hw3e
    have hres3 : mapGet (verifyOTP createOk n3 email w3 (verifyOTP createOk n2 email w2
        (verifyOTP createOk n1 email w1 st).2).2).2.otpStore (lowerStr email) =
        some { rec with attempts := rec.attempts + 1 + 1 + 1 } := by rw [e3]; simp
    have e4 := verifyOTP_mismatch_step createOk n4 email w4 _ _ hres3 hw4 hn4
      (by show rec.attempts + 1 + 1 + 1 < 5; omega) hemail hw4e
    have hres4 : mapGet (verifyOTP createOk n4 email w4 (verifyOTP createOk n3 email w3
        (verifyOTP createOk n2 email w2
        (verifyOTP createOk n1 email w1 st).2).2).2).2.otpStore (lowerStr email) =
        some { rec with attempts := rec.attempts + 1 + 1 + 1 + 1 } := by rw [e4]; simp
    have e5 := verifyOTP_mismatch_step createOk n5 email w5 _ _ hres4 hw5 hn5
      (by show rec.attempts + 1 + 1 + 1 + 1 < 5; omega) hemail hw5e
    have hres5 : mapGet (verifyOTP createOk n5 email w5 (verifyOTP createOk n4 email w4
        (verifyOTP createOk n3 email w3 (verifyOTP createOk n2 email w2
        (verifyOTP createOk n1 email w1 st).2).2).2).2).2.otpStore (lowerStr email) =
        some { rec with attempts := rec.attempts + 1 + 1 + 1 + 1 + 1 } := by rw [e5]; simp
    have e6 := verifyOTP_rate_step createOk n6 email rec.otp _ _ hres5 hn6
      (by show 5 ≤ rec.attempts + 1 + 1 + 1 + 1 + 1; omega) hemail hcode
    refine ⟨?_, ?_, ?_, ?_, ?_, ?_, ?_⟩
    · rw [e1]; simp [hatt0]
    · rw [e2]; simp [hatt0]
    · rw [e3]; simp [hatt0]
    · rw [e4]; simp [hatt0]
    · rw [e5]; simp [hatt0]
    · rw [e6]
    · rw [e6]; simp

/-- C2 witness: against the demo record (code 123456, attempts 0), five wrong
submissions of 111111 report attemptsLeft 4, 3, 2, 1, 0, and the sixth
submission of the correct 123456 is rate-limited and evicts the record. -/
theorem c2_witness :
    (let s1 := (verifyOTP true 10 "a@b.com" "111111" demoServer).2
     let s2 := (verifyOTP true 20 "a@b.com" "111111" s1).2
     let s3 := (verifyOTP true 30 "a@b.com" "111111" s2).2
     let s4 := (verifyOTP true 40 "a@b.com" "111111" s3).2
     let s5 := (verifyOTP true 50 "a@b.com" "111111" s4).2
     (verifyOTP true 10 "a@b.com" "111111" demoServer).1 = .mismatch 4 ∧
     (verifyOTP true 20 "a@b.com" "111111" s1).1 = .mismatch 3 ∧
     (verifyOTP true 30 "a@b.com" "111111" s2).1 = .mismatch 2 ∧
     (verifyOTP true 40 "a@b.com" "111111" s3).1 = .mismatch 1 ∧
     (verifyOTP true 50 "a@b.com" "111111" s4).1 = .mismatch 0 ∧
     (verifyOTP true 60 "a@b.com" "123456" s5).1 = .rateLimited ∧
     mapGet (verifyOTP true 60 "a@b.com" "123456" s5).2.otpStore
       (lowerStr "a@b.com") = none) :=
  (c2_mismatch_counter_and_cap true "a@b.com" demoServer demoRecord
    "111111" "111111" "111111" "111111" "111111" 10 20 30 40 50 60
    (by decide) rfl (by decide) (by decide)
    (by decide) (by decide) (by decide)
    (by decide) (by decide) (by decide)
    (by decide) (by decide) (by decide)
    (by decide) (by decide) (by decide)
    (by decide) (by decide) (by decide)
    (by decide)).2

/-- C5: a confirmation arriving strictly after the stored expiry fails with
the expired error and deletes the pending record as a side effect, so a
subsequent reissue for the same email fails with the not-found error and
leaves the state unchanged. -/
theorem c5_expired_confirmation_then_reissue (createOk : Bool) (now now2 : Nat)
    (email otp : String) (r : Nat) (st : ServerState) (rec : OtpRecord)
    (hres : mapGet st.otpStore (lowerStr email) = some rec)
    (hexp : now > rec.expires) (hemail : email ≠ "") (hotp : otp ≠ "") :
    (verifyOTP createOk now email otp st).1 = .expired ∧
    mapGet (verifyOTP createOk now email otp st).2.otpStore (lowerStr email) = none ∧
    resendOTP now2 email r (verifyOTP createOk now email otp st).2 =
      (.notFound, (verifyOTP createOk now email otp st).2) := by
  have e := verifyOTP_expired_step createOk now email otp st rec hres hexp hemail hotp
  have hn : mapGet (verifyOTP createOk now email otp st).2.otpStore (lowerStr email) = none := by
    rw [e]; simp
  exact ⟨by rw [e], hn, resendOTP_notFound_step now2 email r _ hn hemail⟩

/-- C5 witness: confirming the demo code at instant 300001 (past the expiry
300000) reports expired, removes the record, and a reissue then reports no
pending verification. -/
theorem c5_witness :
    (verifyOTP true 300001 "a@b.com" "123456" demoServer).1 = .expired ∧
    mapGet (verifyOTP true 300001 "a@b.com" "123456" demoServer).2.otpStore
      (lowerStr "a@b.com") = none ∧
    resendOTP 300002 "a@b.com" 7 (verifyOTP true 300001 "a@b.com" "123456" demoServer).2 =
      (.notFound, (verifyOTP true 300001 "a@b.com" "123456" demoServer).2) :=
  c5_expired_confirmation_then_reissue true 300001 300002 "a@b.com" "123456" 7 demoServer
    demoRecord (by decide) (by decide) (by decide) (by decide)

/-- C6: a successful confirmation hands the stored payload to account
creation and deletes the pending record, so a second confirmation with the
same previously-correct code fails with the not-found error and changes
nothing. -/
theorem c6_confirmation_not_idempotent (createOk2 : Bool) (now now2 : Nat) (email : String)
    (st : ServerState) (rec : OtpRecord)
    (hres : mapGet st.otpStore (lowerStr email) = some rec)
    (hexp : now ≤ rec.expires) (hatt : rec.attempts < 5)
    (hemail : email ≠ "") (hotp : rec.otp ≠ "") :
    (verifyOTP true now email rec.otp st).1 = .success rec.userData ∧
    mapGet (verifyOTP true now email rec.otp st).2.otpStore (lowerStr email) = none ∧
    verifyOTP createOk2 now2 email rec.otp (verifyOTP true now email rec.otp st).2 =
      (.notFound, (verifyOTP true now email rec.otp st).2) := by
  have e := verifyOTP_success_step now email st rec hres hexp hatt hemail hotp
  have hn : mapGet (verifyOTP true now email rec.otp st).2.otpStore (lowerStr email) = none := by
    rw [e]; simp
  exact ⟨by rw [e], hn, verifyOTP_notFound_step createOk2 now2 email rec.otp _ hn hemail hotp⟩

/-- C6 witness: confirming the demo code once succeeds with the stored
payload and removes the record; the identical second confirmation reports no
pending verification. -/
theorem c6_witness :
    (verifyOTP true 10 "a@b.com" "123456" demoServer).1 = .success demoUserData ∧
    mapGet (verifyOTP true 10 "a@b.com" "123456" demoServer).2.otpStore
      (lowerStr "a@b.com") = none ∧
    verifyOTP true 20 "a@b.com" "123456" (verifyOTP true 10 "a@b.com" "123456" demoServer).2 =
      (.notFound, (verifyOTP true 10 "a@b.com" "123456" demoServer).2) :=
  c6_confirmation_not_idempotent true 10 20 "a@b.com" demoServer demoRecord
    (by decide) (by decide) (by decide) (by decide) (by decide)

/-- C7: reissue fails not-found when no pending record exists; otherwise it
replaces the code with a fresh draw, resets the expiry to now + 5 minutes
and the attempt counter to 0 while keeping the payload, leaves the scheduled
eviction timers untouched (the 10-minute hard-eviction clock is set only at
creation), and — whenever the fresh code differs from the old one — the old
code no longer validates: submitting it afterwards yields a mismatch. -/
theorem c7_reissue_resets_code_not_eviction (createOk : Bool) (now now2 : Nat)
    (email : String) (r : Nat) (st : ServerState) (hemail : email ≠ "") :
    (mapGet st.otpStore (lowerStr email) = none →
      resendOTP now email r st = (.notFound, st)) ∧
    (∀ rec : OtpRecord, mapGet st.otpStore (lowerStr email) = some rec →
      (resendOTP now email r st).1 = .ok ∧
      mapGet (resendOTP now email r st).2.otpStore (lowerStr email) =
        some { rec with otp := generateOTP r, expires := now + 5 * 60 * 1000, attempts := 0 } ∧
      (resendOTP now email r st).2.timers = st.timers ∧
      (generateOTP r ≠ rec.otp → rec.otp ≠ "" → now2 ≤ now + 5 * 60 * 1000 →
        (verifyOTP createOk now2 email rec.otp (resendOTP now email r st).2).1 =
          .mismatch 4)) := by
  constructor
  · intro hn
    exact resendOTP_notFound_step now email r st hn hemail
  · intro rec hres
    have e := resendOTP_ok_step now email r st rec hres hemail
    have hres' : mapGet (resendOTP now email r st).2.otpStore (lowerStr email) = some { rec with otp := generateOTP r, expires := now + 5 * 60 * 1000, attempts := 0 } := by
      rw [e]; simp
    refine ⟨by rw [e], hres', by rw [e], ?_⟩
    intro hne hold hn2
    have e2 := verifyOTP_mismatch_step createOk now2 email rec.otp _ _ hres' hne hn2
      (by show (0 : Nat) < 5; omega) hemail hold
    rw [e2]; simp

/-- C7 witness: reissuing for the demo record with randomness 7 (code
100007) succeeds, stores the new code with reset expiry and attempts and
the same timers, and the old code 123456 then mismatches with attemptsLeft
4; reissuing for an absent address reports no pending verification. -/
theorem c7_witness :
    resendOTP 100 "missing@b.com" 7 demoServer = (.notFound, demoServer) ∧
    (resendOTP 100 "a@b.com" 7 demoServer).1 = .ok ∧
    mapGet (resendOTP 100 "a@b.com" 7 demoServer).2.otpStore (lowerStr "a@b.com") = some { demoRecord with otp := generateOTP 7, expires := 100 + 5 * 60 * 1000, attempts := 0 } ∧
    (resendOTP 100 "a@b.com" 7 demoServer).2.timers = demoServer.timers ∧
    (verifyOTP true 200 "a@b.com" "123456" (resendOTP 100 "a@b.com" 7 demoServer).2).1 =
      .mismatch 4 :=
  have h1 := (c7_reissue_resets_code_not_eviction true 100 200 "missing@b.com" 7 demoServer
    (by decide)).1 (by decide)
  have h2 := (c7_reissue_resets_code_not_eviction true 100 200 "a@b.com" 7 demoServer
    (by decide)).2 demoRecord (by decide)
  ⟨h1, h2.1, h2.2.1, h2.2.2.1, h2.2.2.2 (by decide) (by decide) (by decide)⟩

/-- C10: issuing a registration twice for the same normalized email makes the
second record overwrite the first (one record per key, carrying the second
draw, expiry and a zeroed counter), yet the eviction timer scheduled by the
first issuance stays pending alongside the second one; when it fires it
deletes whatever record sits under the key — the replacement — at
t0 + 10 min, strictly earlier than 10 minutes after the replacement was
created. -/
theorem c10_duplicate_issue_stale_eviction (parseErrMsg hashed1 hashed2 : String)
    (promo1 promo2 : PromoOutcome) (inp1 inp2 : RegisterInput) (r1 r2 t0 t1 : Nat)
    (st0 : ServerState)
    (hsame : lowerStr inp2.email = lowerStr inp1.email) (ht : t0 < t1) :
    (let key := lowerStr (lowerStr inp1.email)
     let st1 := (registerWithOTP true parseErrMsg false hashed1 promo1 inp1 r1 t0 st0).2
     let st2 := (registerWithOTP true parseErrMsg false hashed2 promo2 inp2 r2 t1 st1).2
     (∃ rec : OtpRecord, mapGet st2.otpStore key = some rec ∧
        rec.otp = generateOTP r2 ∧ rec.expires = t1 + 5 * 60 * 1000 ∧ rec.attempts = 0) ∧
     (key, t0 + 10 * 60 * 1000) ∈ st2.timers ∧
     (key, t1 + 10 * 60 * 1000) ∈ st2.timers ∧
     mapGet (fireEviction key st2).otpStore key = none ∧
     t0 + 10 * 60 * 1000 < t1 + 10 * 60 * 1000) := by
  dsimp only
  rw [registerWithOTP_success_state parseErrMsg hashed2 promo2 inp2 r2 t1,
    registerWithOTP_success_state parseErrMsg hashed1 promo1 inp1 r1 t0]
  simp only [storeOTP, registerPayload_email, hsame]
  refine ⟨⟨_, mapGet_set_self _ _ _, rfl, rfl, rfl⟩, ?_, ?_, ?_, by omega⟩
  · simp
  · simp
  · simp [fireEviction]

/-- C10 witness: registering the demo input at t=0 and again at t=1000
leaves one record (the second code, expiry 301000, attempts 0) under the
key, both eviction timers pending, and firing the first timer removes the
replacement record; 600000 < 601000. -/
theorem c10_witness :
    (∃ rec : OtpRecord,
        mapGet ((registerWithOTP true "err" false "h2" .invalid demoInput 8 1000
          ((registerWithOTP true "err" false "h1" .invalid demoInput 7 0
            { otpStore := [], timers := [] }).2)).2).otpStore
          (lowerStr (lowerStr demoInput.email)) = some rec ∧
        rec.otp = generateOTP 8 ∧ rec.expires = 1000 + 5 * 60 * 1000 ∧ rec.attempts = 0) ∧
    (lowerStr (lowerStr demoInput.email), 0 + 10 * 60 * 1000) ∈
      ((registerWithOTP true "err" false "h2" .invalid demoInput 8 1000
        ((registerWithOTP true "err" false "h1" .invalid demoInput 7 0
          { otpStore := [], timers := [] }).2)).2).timers ∧
    (lowerStr (lowerStr demoInput.email), 1000 + 10 * 60 * 1000) ∈
      ((registerWithOTP true "err" false "h2" .invalid demoInput 8 1000
        ((registerWithOTP true "err" false "h1" .invalid demoInput 7 0
          { otpStore := [], timers := [] }).2)).2).timers ∧
    mapGet (fireEviction (lowerStr (lowerStr demoInput.email))
      ((registerWithOTP true "err" false "h2" .invalid demoInput 8 1000
        ((registerWithOTP true "err" false "h1" .invalid demoInput 7 0
          { otpStore := [], timers := [] }).2)).2)).otpStore
      (lowerStr (lowerStr demoInput.email)) = none ∧
    0 + 10 * 60 * 1000 < 1000 + 10 * 60 * 1000 :=
  c10_duplicate_issue_stale_eviction "err" "h1" "h2" .invalid .invalid demoInput demoInput
    7 8 0 1000 { otpStore := [], timers := [] } rfl (by omega)

/-- C1: the synchronous prefix of logout pins the state to disabled, clears
the user and persists the logout lock (flag plus timestamp, read back against
a 120 s TTL) before any asynchronous teardown runs; and any IdP sign-in
notification handled while the persisted lock is active and unexpired — or
while the state is disabled — is rejected: the Firebase session is force
signed out, the state stays disabled with no user, and nothing carrying user
data is emitted to listeners. -/
theorem c1_logout_lock_blocks_idp_signin (st st' : ManagerState) (now now' : Nat)
    (fb : FirebaseUser) (backend : Option BackendUser)
    (h : (st'.store.auth_disabled = some "true" ∧ recentLogout now' st'.store = true) ∨
         st'.authState = .disabled) :
    ((logoutSync now st).authState = .disabled ∧ (logoutSync now st).user = none ∧
     (logoutSync now st).store.auth_disabled = some "true" ∧
     (logoutSync now st).store.logout_timestamp = some now) ∧
    ((handleAuthChange now' (some fb) backend st').authState = .disabled ∧
     (handleAuthChange now' (some fb) backend st').user = none ∧
     (handleAuthChange now' (some fb) backend st').idpSignOuts = st'.idpSignOuts + 1 ∧
     ∀ e ∈ (handleAuthChange now' (some fb) backend st').emissions,
       e ∈ st'.emissions ∨ e.2 = none) := by
  have hg : st'.authState = .disabled ∨ st'.isLoggedOut = true ∨
      recentLogout now' st'.store = true ∨ st'.store.auth_disabled = some "true" := by
    rcases h with ⟨h1, h2⟩ | h1
    · exact Or.inr (Or.inr (Or.inl h2))
    · exact Or.inl h1
  constructor
  · refine ⟨?_, ?_, ?_, ?_⟩ <;> simp [logoutSync]
  · rw [handleAuthChange, if_pos hg]
    refine ⟨by simp, by simp, by simp, ?_⟩
    intro e he
    have hmem := notifyListeners_emissions_mem _ e he
    rcases hmem with hmem | hmem
    · exact Or.inl hmem
    · exact Or.inr (by rw [hmem])

/-- C1 witness: logging out from the authenticated demo state disables it at
once and persists the lock; a sign-in notification handled against the
locked state is rejected with a forced Firebase sign-out, no user, and no
new emission. -/
theorem c1_witness :
    (logoutSync 500 demoManager).authState = .disabled ∧
    (logoutSync 500 demoManager).user = none ∧
    (logoutSync 500 demoManager).store.auth_disabled = some "true" ∧
    (logoutSync 500 demoManager).store.logout_timestamp = some 500 ∧
    (handleAuthChange 1000 (some { uid := "f1", email := none }) none
      lockedManager).authState = .disabled ∧
    (handleAuthChange 1000 (some { uid := "f1", email := none }) none
      lockedManager).user = none ∧
    (handleAuthChange 1000 (some { uid := "f1", email := none }) none
      lockedManager).idpSignOuts = lockedManager.idpSignOuts + 1 :=
  have h := c1_logout_lock_blocks_idp_signin demoManager lockedManager 500 1000
    { uid := "f1", email := none } none (Or.inr rfl)
  ⟨h.1.1, h.1.2.1, h.1.2.2.1, h.1.2.2.2, h.2.1, h.2.2.1, h.2.2.2.1⟩

/-- C4, counterexample: the refresh result freshQuotaOnly differs from the
cached snapshot in the quota field totalPages (20 against 10) while agreeing
on tier, storyboard capability and shots; the claim requires an in-place
overwrite and a re-emission, but the reconciliation leaves the manager state
entirely unchanged. -/
theorem c4_counterexample :
    freshQuotaOnly.totalPages ≠ demoUser.totalPages ∧
    demoManager.user = some demoUser ∧
    validateAndUpdateTier (some freshQuotaOnly) demoManager = demoManager :=
  ⟨by decide, rfl, rfl⟩

/-- C4, amended: the once-per-authentication reconciliation compares only the
tier name, the storyboard capability flag and maxShotsPerScene — totalPages
is not consulted, so a difference confined to it triggers nothing; when one
of the three compared fields differs, the four tier fields (totalPages
included) are overwritten in place, the identity fields id, email,
displayName and provider are untouched, and the new snapshot is emitted to
listeners; when the three compared fields all agree the cached snapshot and
the emission log are left unchanged. -/
theorem c4_tier_reconciliation (st : ManagerState) (u : AuthUser) (f : BackendUser)
    (hu : st.user = some u)
    (hlast : st.lastNotified = some (st.authState, st.user)) :
    ((f.tier ≠ u.tier ∨ f.canGenerateStoryboards ≠ u.canGenerateStoryboards ∨
        f.maxShotsPerScene ≠ u.maxShotsPerScene) →
      (validateAndUpdateTier (some f) st).user = some (applyTierUpdate u f) ∧
      (validateAndUpdateTier (some f) st).emissions =
        st.emissions ++ [(st.authState, some (applyTierUpdate u f))] ∧
      (applyTierUpdate u f).id = u.id ∧ (applyTierUpdate u f).email = u.email ∧
      (applyTierUpdate u f).displayName = u.displayName ∧
      (applyTierUpdate u f).provider = u.provider ∧
      (applyTierUpdate u f).tier = f.tier ∧
      (applyTierUpdate u f).totalPages = f.totalPages ∧
      (applyTierUpdate u f).maxShotsPerScene = f.maxShotsPerScene ∧
      (applyTierUpdate u f).canGenerateStoryboards = f.canGenerateStoryboards) ∧
    ((f.tier = u.tier ∧ f.canGenerateStoryboards = u.canGenerateStoryboards ∧
        f.maxShotsPerScene = u.maxShotsPerScene) →
      validateAndUpdateTier (some f) st = st) := by
  constructor
  · intro hdiff
    have hne : u ≠ applyTierUpdate u f := by
      intro he
      rcases hdiff with hd | hd | hd
      · exact hd (by rw [he]; rfl)
      · exact hd (by rw [he]; rfl)
      · exact hd (by rw [he]; rfl)
    simp only [validateAndUpdateTier, hu]
    rw [if_pos hdiff]
    have hnl : ({ st with user := some (applyTierUpdate u f) } :
        ManagerState).lastNotified ≠
        some (({ st with user := some (applyTierUpdate u f) } : ManagerState).authState,
          ({ st with user := some (applyTierUpdate u f) } : ManagerState).user) := by
      simp only [hlast, hu]
      intro hcon
      apply hne
      simpa using hcon
    rw [notifyListeners_of_new _ hnl]
    exact ⟨rfl, rfl, rfl, rfl, rfl, rfl, rfl, rfl, rfl, rfl⟩
  · intro ⟨h1, h2, h3⟩
    simp only [validateAndUpdateTier, hu]
    rw [if_neg]
    simp [h1, h2, h3]

/-- C4 witness: a refresh reporting the pro tier against the cached free-tier
demo user overwrites the four tier fields in place, keeps the identity
fields, and appends exactly one emission with the updated snapshot. -/
theorem c4_witness :
    (validateAndUpdateTier (some freshPro) demoManager).user =
      some (applyTierUpdate demoUser freshPro) ∧
    (validateAndUpdateTier (some freshPro) demoManager).emissions =
      demoManager.emissions ++
        [(demoManager.authState, some (applyTierUpdate demoUser freshPro))] ∧
    (applyTierUpdate demoUser freshPro).id = demoUser.id ∧
    (applyTierUpdate demoUser freshPro).email = demoUser.email :=
  have h := (c4_tier_reconciliation demoManager demoUser freshPro rfl rfl).1
    (Or.inl (by decide))
  ⟨h.1, h.2.1, h.2.2.1, h.2.2.2.1⟩

/-- C9: when the cached user has email exactly premium@demo.com, every call
to updateUserData overrides the supplied patch so that the merged snapshot
carries tier pro, unlimited pages and shots (-1), and storyboard generation
enabled, whatever the patch — in particular whatever a backend refresh
returned — said. -/
theorem c9_premium_demo_forced_pro (p : AuthUserPatch) (st : ManagerState) (u : AuthUser)
    (hu : st.user = some u) (he : u.email = "premium@demo.com") :
    ∃ u' : AuthUser, (updateUserData p st).user = some u' ∧
      u'.tier = some "pro" ∧ u'.totalPages = some (-1) ∧
      u'.maxShotsPerScene = some (-1) ∧ u'.canGenerateStoryboards = some true := by
  refine ⟨mergeUser u { p with tier := some (some "pro"), totalPages := some (some (-1)), maxShotsPerScene := some (some (-1)), canGenerateStoryboards := some (some true) }, ?_, rfl, rfl, rfl, rfl⟩
  simp only [updateUserData, hu]
  rw [if_pos he, notifyListeners_user]

/-- C9 witness: refreshing the premium demo account with a patch that says
free tier and finite quotas still lands on pro, -1, -1, true. -/
theorem c9_witness :
    ∃ u' : AuthUser,
      (updateUserData freePatch premiumDemoManager).user = some u' ∧
      u'.tier = some "pro" ∧ u'.totalPages = some (-1) ∧
      u'.maxShotsPerScene = some (-1) ∧ u'.canGenerateStoryboards = some true :=
  c9_premium_demo_forced_pro freePatch premiumDemoManager premiumDemoUser rfl rfl

end IndieShots
